import Mathlib

/-!
Verification development for the `time-monitor` repository.

The subject is `src/time_monitor/cli.py`: the `TimeMonitor` display-loop and
lifecycle controller (curses session setup and teardown, the per-frame render
loop, signal handling, timestamp formatting) and the `main` command-line entry
point.  Python methods are embedded as pure Lean functions; the effectful
`run` loop becomes a fueled interpreter that threads the monitor state and an
explicit terminal-settings record while emitting a trace of the terminal
primitives it invokes.  The asynchronous environment (key presses, terminal
sizes, clock readings, injected curses failures, delivered signals) is an
explicit `Env` record.
-/

/-- A UTC instant as produced by `datetime.now(timezone.utc)` in
`TimeMonitor.format_time`. -/
structure DateTime where
  year : Nat
  month : Nat
  day : Nat
  hour : Nat
  minute : Nat
  second : Nat
  micro : Nat
deriving Repr, DecidableEq

/-- Field ranges of a Python `datetime` value (`MINYEAR = 1`,
`MAXYEAR = 9999`, microseconds below `10^6`). -/
abbrev DateTime.valid (d : DateTime) : Prop :=
  1 ≤ d.year ∧ d.year ≤ 9999 ∧ 1 ≤ d.month ∧ d.month ≤ 12 ∧ 1 ≤ d.day ∧
    d.day ≤ 31 ∧ d.hour ≤ 23 ∧ d.minute ≤ 59 ∧ d.second ≤ 59 ∧
    d.micro ≤ 999999

/-- The decimal digit character for `n % 10`. -/
def digitChar (n : Nat) : Char := Char.ofNat (48 + n % 10)

/-- `padDigits w n` is the zero-padded `w`-character decimal rendering of `n`
(exact for `n < 10 ^ w`), as produced by the zero-padded `strftime`
directives `%Y`, `%m`, `%d`, `%H`, `%M`, `%S`, `%f`. -/
def padDigits : Nat → Nat → List Char
  | 0, _ => []
  | w + 1, n => digitChar (n / 10 ^ w) :: padDigits w n

/-- The character sequence of
`now.strftime("%Y-%m-%d %H:%M:%S.%f")` from `TimeMonitor.format_time`:
a 26-character string `YYYY-MM-DD HH:MM:SS.uuuuuu`. -/
def strftimeChars (d : DateTime) : List Char :=
  padDigits 4 d.year ++ '-' :: padDigits 2 d.month ++ '-' :: padDigits 2 d.day ++
    ' ' :: padDigits 2 d.hour ++ ':' :: padDigits 2 d.minute ++
    ':' :: padDigits 2 d.second ++ '.' :: padDigits 6 d.micro

/-- `TimeMonitor.format_time`:
`now.strftime("%Y-%m-%d %H:%M:%S.%f")[:-3]` — the Python slice `[:-3]`
keeps all but the last three characters, truncating microseconds to
milliseconds. -/
def format_time (d : DateTime) : String :=
  String.mk ((strftimeChars d).take ((strftimeChars d).length - 3))

/-- Observable tty / curses-screen settings manipulated by `init_curses` and
`cleanup_curses` (`curses.noecho`, `curses.cbreak`, `stdscr.keypad`,
`curses.curs_set`, `curses.initscr` / `curses.endwin`). -/
structure TermSettings where
  echoOn : Bool
  canonical : Bool
  keypadOn : Bool
  cursorVisible : Bool
  screenActive : Bool
deriving Repr, DecidableEq

/-- The terminal before any curses call: echoing, canonical (cooked) mode,
keypad off, cursor visible, no active curses screen. -/
def initialTerm : TermSettings :=
  { echoOn := true, canonical := true, keypadOn := false,
    cursorVisible := true, screenActive := false }

/-- Python exceptions relevant to `TimeMonitor.run`: `curses.error`,
`RuntimeError`, and `KeyboardInterrupt` (the latter is caught and swallowed
by the `except KeyboardInterrupt` clause). -/
inductive PyError where
  | cursesError (msg : String)
  | runtimeError (msg : String)
  | keyboardInterrupt
deriving Repr, DecidableEq

/-- Possible outcomes of the `curses.initscr()` call inside `init_curses`:
a real window, the (defensively checked) `None` return, or an exception. -/
inductive InitscrResult where
  | win
  | noneWin
  | raised (e : PyError)
deriving Repr, DecidableEq

/-- Terminal-session primitives invoked by `TimeMonitor.run`, recorded as a
trace.  `initAttempt` marks the `init_curses` call, `cleanup` the
`cleanup_curses` call (the teardown in the `finally` clause),
`stdscrNoneBreak` the defensive `else` branch that breaks out of the loop
when `self.stdscr` is `None`. -/
inductive Event where
  | initAttempt
  | getch (k : Int)
  | clear
  | writeAt (y : Int) (x : Int) (s : String)
  | refresh
  | sleep (d : ℚ)
  | stdscrNoneBreak
  | cleanup
deriving Repr, DecidableEq

/-- Render-side display primitives (`clear`, `addstr`, `refresh`). -/
def Event.isRender : Event → Bool
  | Event.clear => true
  | Event.writeAt _ _ _ => true
  | Event.refresh => true
  | _ => false

/-- How one traversal of the `while` loop body chain ends. -/
inductive LoopExit where
  | normal
  | exc (e : PyError)
  | fuelOut
deriving Repr, DecidableEq

/-- Result of a `run()` invocation: `done none` — returned normally,
`done (some e)` — exception `e` re-surfaced to the caller, `diverged` — the
modelling fuel ran out while the loop was still running. -/
inductive RunResult where
  | done (e : Option PyError)
  | diverged
deriving Repr, DecidableEq

/-- The asynchronous environment of one `run()` invocation: the
`curses.initscr` outcome, a possible failure in the post-`initscr` setup
calls, per-iteration key presses (`stdscr.getch`, `-1` when no key is
buffered), terminal sizes (`stdscr.getmaxyx`), clock readings
(`datetime.now`), injected per-frame render failures, and signal
deliveries observed at the loop's condition check. -/
structure Env where
  initscrResult : InitscrResult
  setupFail : Option PyError
  key : Nat → Int
  dims : Nat → Nat × Nat
  now : Nat → DateTime
  frameFail : Nat → Option PyError
  signalBefore : Nat → Bool

/-- The `TimeMonitor` object: `update_interval`, the `running` flag, and the
optional curses window handle `stdscr`. -/
structure TimeMonitor where
  update_interval : ℚ
  running : Bool
  stdscr : Option Unit
deriving Repr, DecidableEq

/-- Message of `RuntimeError("Failed to initialize curses")` in
`init_curses`. -/
def initFailMsg : String := "Failed to initialize curses"

/-- The static instruction line drawn each frame. -/
def instructionLine : String := "Press 'q' to quit"

namespace TimeMonitor

/-- The closure registered by `setup_signal_handlers` for `SIGINT` and
`SIGTERM`: it only sets `self.running = False` (the log call performs no
terminal I/O). -/
def signal_handler (_signum : Int) (m : TimeMonitor) : TimeMonitor :=
  { m with running := false }

/-- Terminal primitives invoked by the signal handler body: none. -/
def signal_handler_events (_signum : Int) : List Event := []

/-- `TimeMonitor.init_curses`: `self.stdscr = curses.initscr()`; if the
result is `None`, raise `RuntimeError`; otherwise `noecho`, `cbreak`,
`keypad(True)`, `nodelay(True)`, `curs_set(0)` (a failure in these leaves
the screen active with `stdscr` already assigned).  Returns the updated
monitor and terminal settings plus the raised exception, if any. -/
def init_curses (env : Env) (m : TimeMonitor) (t : TermSettings) :
    (TimeMonitor × TermSettings) × Option PyError :=
  match env.initscrResult with
  | InitscrResult.raised e => ((m, t), some e)
  | InitscrResult.noneWin =>
      (({ m with stdscr := none }, t), some (PyError.runtimeError initFailMsg))
  | InitscrResult.win =>
      match env.setupFail with
      | some e => (({ m with stdscr := some () }, { t with screenActive := true }), some e)
      | none =>
          (({ m with stdscr := some () },
            { t with screenActive := true, echoOn := false, canonical := false,
                     keypadOn := true, cursorVisible := false }), none)

/-- `TimeMonitor.cleanup_curses`: when `self.stdscr` is truthy, restore
canonical mode (`nocbreak`), disable keypad, re-enable echo and call
`endwin` (which deactivates the screen and restores cursor visibility);
when `stdscr` is `None` it does nothing.  A total function: the restore
primitives themselves do not raise.  Note the method never resets
`self.stdscr` to `None`. -/
def cleanup_curses (m : TimeMonitor) (t : TermSettings) :
    TimeMonitor × TermSettings :=
  match m.stdscr with
  | none => (m, t)
  | some _ =>
      (m, { t with canonical := true, keypadOn := false, echoOn := true,
                   cursorVisible := true, screenActive := false })

/-- Row of the centered timestamp: `y = height // 2`. -/
def centerRow (height : Nat) : Nat := height / 2

/-- Column of the centered timestamp:
`x = max(0, (width - len(time_str)) // 2)` (Python `//` is floor
division). -/
def centerCol (width tsLen : Nat) : Int :=
  max 0 (((width : Int) - (tsLen : Int)).fdiv 2)

/-- One fueled unfolding of the `while self.running:` loop of
`TimeMonitor.run`, starting at iteration `i`.  A delivered signal runs
`signal_handler` before the condition check; the body polls `getch`,
breaks on `q`/`Q` (113/81), renders a frame (an injected `frameFail`
models a curses call raising during the render, before any primitive of
that frame completes), then sleeps.  Returns the final monitor, terminal
settings, the trace of terminal primitives, and how the loop ended. -/
def loop (env : Env) : Nat → Nat → TimeMonitor → TermSettings →
    TimeMonitor × TermSettings × List Event × LoopExit
  | 0, _, m, t => (m, t, [], LoopExit.fuelOut)
  | fuel + 1, i, m, t =>
    let m1 := if env.signalBefore i then signal_handler 2 m else m
    let sigTrace := if env.signalBefore i then signal_handler_events 2 else []
    if m1.running then
      match m1.stdscr with
      | none => (m1, t, sigTrace ++ [Event.stdscrNoneBreak], LoopExit.normal)
      | some _ =>
        let k := env.key i
        if k = 113 ∨ k = 81 then
          (m1, t, sigTrace ++ [Event.getch k], LoopExit.normal)
        else
          match env.frameFail i with
          | some e => (m1, t, sigTrace ++ [Event.getch k], LoopExit.exc e)
          | none =>
            let ts := format_time (env.now i)
            let h := (env.dims i).1
            let w := (env.dims i).2
            let frame := [Event.getch k, Event.clear,
              Event.writeAt (centerRow h : Int) (centerCol w ts.length) ts,
              Event.writeAt ((h : Int) - 2) 0 instructionLine,
              Event.refresh, Event.sleep m1.update_interval]
            let r := loop env fuel (i + 1) m1 t
            (r.1, r.2.1, sigTrace ++ frame ++ r.2.2.1, r.2.2.2)
    else
      (m1, t, sigTrace, LoopExit.normal)

/-- The `except` clauses of `run`: `KeyboardInterrupt` is swallowed (normal
return), any other exception is re-raised after the `finally` clause. -/
def handleExc (e : PyError) : RunResult :=
  if e = PyError.keyboardInterrupt then RunResult.done none
  else RunResult.done (some e)

/-- `TimeMonitor.run`: set `running = True`, register signal handlers, then
`try: init_curses(); while running: ... except KeyboardInterrupt: pass
except Exception: raise finally: running = False; cleanup_curses()`. -/
def run (env : Env) (fuel : Nat) (m0 : TimeMonitor) (t0 : TermSettings) :
    TimeMonitor × TermSettings × List Event × RunResult :=
  let m1 : TimeMonitor := { m0 with running := true }
  let ir := init_curses env m1 t0
  match ir.2 with
  | some e =>
      let m2 := { ir.1.1 with running := false }
      let c := cleanup_curses m2 ir.1.2
      (c.1, c.2, [Event.initAttempt, Event.cleanup], handleExc e)
  | none =>
      let r := loop env fuel 0 ir.1.1 ir.1.2
      match r.2.2.2 with
      | LoopExit.fuelOut => (r.1, r.2.1, Event.initAttempt :: r.2.2.1, RunResult.diverged)
      | LoopExit.normal =>
          let m2 := { r.1 with running := false }
          let c := cleanup_curses m2 r.2.1
          (c.1, c.2, Event.initAttempt :: (r.2.2.1 ++ [Event.cleanup]), RunResult.done none)
      | LoopExit.exc e =>
          let m2 := { r.1 with running := false }
          let c := cleanup_curses m2 r.2.1
          (c.1, c.2, Event.initAttempt :: (r.2.2.1 ++ [Event.cleanup]), handleExc e)

end TimeMonitor

/-- Message accompanying a propagated exception, as interpolated into
`click.echo(f"Error: {str(e)}")` by `main`. -/
def PyError.message : PyError → String
  | PyError.cursesError s => s
  | PyError.runtimeError s => s
  | PyError.keyboardInterrupt => "KeyboardInterrupt"

/-- Error message for a non-positive `--interval`. -/
def intervalErrMsg : String := "Error: Interval must be greater than 0"

/-- Warning for a very small `--interval`. -/
def smallIntervalWarnMsg : String := "Warning: Very small intervals may cause high CPU usage"

/-- Prefix used when `main` reports a propagated runtime failure. -/
def errPrefix : String := "Error: "

/-- Observable outcome of the `main` command: the process exit code (0 on
normal return, 1 via `sys.exit(1)`), the messages written to standard
error by `click.echo(..., err=True)`, whether a `TimeMonitor` was
constructed, the trace of terminal primitives, and whether the modelled
run exhausted its fuel. -/
structure MainResult where
  exitCode : Nat
  stderr : List String
  monitorConstructed : Bool
  runTrace : List Event
  diverged : Bool
deriving Repr, DecidableEq

/-- The `main` click command: validate `--interval` (≤ 0 → error message and
`sys.exit(1)` before any `TimeMonitor` is constructed; < 0.001 → warning),
construct the monitor and call `run`; a propagated exception is reported
with the `Error: ` prefix and mapped to exit code 1.  Logging configuration
is omitted (no observable behavior). -/
def Cli.main (interval : ℚ) (_verbose : Bool) (env : Env) (fuel : Nat) : MainResult :=
  if interval ≤ 0 then
    { exitCode := 1, stderr := [intervalErrMsg], monitorConstructed := false,
      runTrace := [], diverged := false }
  else
    let warnings := if interval < 1 / 1000 then [smallIntervalWarnMsg] else []
    let monitor : TimeMonitor :=
      { update_interval := interval, running := false, stdscr := none }
    let r := TimeMonitor.run env fuel monitor initialTerm
    match r.2.2.2 with
    | RunResult.done none =>
        { exitCode := 0, stderr := warnings, monitorConstructed := true,
          runTrace := r.2.2.1, diverged := false }
    | RunResult.done (some e) =>
        { exitCode := 1, stderr := warnings ++ [errPrefix ++ e.message],
          monitorConstructed := true, runTrace := r.2.2.1, diverged := false }
    | RunResult.diverged =>
        { exitCode := 0, stderr := warnings, monitorConstructed := true,
          runTrace := r.2.2.1, diverged := true }

/-- A benign concrete environment: `initscr` succeeds, the quit key is
pressed immediately, the terminal is 24×80, no failures, no signals. -/
def quitEnv : Env :=
  { initscrResult := InitscrResult.win, setupFail := none,
    key := fun _ => 113, dims := fun _ => (24, 80),
    now := fun _ => ⟨2026, 10, 12, 9, 5, 3, 123456⟩,
    frameFail := fun _ => none, signalBefore := fun _ => false }

/-- A concrete environment whose `initscr` call raises a curses error. -/
def initFailEnv : Env :=
  { quitEnv with initscrResult := InitscrResult.raised (PyError.cursesError initFailMsg) }

/-- A concrete monitor as constructed by `main` with interval 1. -/
def monitor1 : TimeMonitor :=
  { update_interval := 1, running := false, stdscr := none }

/-- A monitor in mid-loop shape: running with an open window. -/
def monitorLive : TimeMonitor :=
  { update_interval := 1, running := true, stdscr := some () }

theorem padDigits_length (w n : Nat) : (padDigits w n).length = w := by
  induction w with
  | zero => rfl
  | succ w ih => simp [padDigits, ih]

theorem digitChar_isDigit (n : Nat) : (digitChar n).isDigit = true := by
  unfold digitChar
  have h : n % 10 < 10 := Nat.mod_lt _ (by norm_num)
  set k := n % 10 with hk
  interval_cases k <;> decide

set_option maxHeartbeats 1000000 in
theorem format_time_eq (d : DateTime) :
    format_time d = String.mk [digitChar (d.year / 10 ^ 3), digitChar (d.year / 10 ^ 2),
      digitChar (d.year / 10 ^ 1), digitChar (d.year / 10 ^ 0), '-',
      digitChar (d.month / 10 ^ 1), digitChar (d.month / 10 ^ 0), '-',
      digitChar (d.day / 10 ^ 1), digitChar (d.day / 10 ^ 0), ' ',
      digitChar (d.hour / 10 ^ 1), digitChar (d.hour / 10 ^ 0), ':',
      digitChar (d.minute / 10 ^ 1), digitChar (d.minute / 10 ^ 0), ':',
      digitChar (d.second / 10 ^ 1), digitChar (d.second / 10 ^ 0), '.',
      digitChar (d.micro / 10 ^ 5), digitChar (d.micro / 10 ^ 4),
      digitChar (d.micro / 10 ^ 3)] := by
  simp [format_time, strftimeChars, padDigits]

theorem format_time_sample :
    format_time ⟨2026, 10, 12, 9, 5, 3, 123456⟩ = "2026-10-12 09:05:03.123" := by
  decide

set_option maxHeartbeats 1000000 in
/-- C4: for every valid instant, the string produced by `format_time` has
exactly 23 characters in the form `YYYY-MM-DD HH:MM:SS.mmm`, with `-` at
offsets 4 and 7, a space at offset 10, `:` at offsets 13 and 16, `.` at
offset 19, and decimal digits everywhere else. -/
theorem format_time_shape (d : DateTime) (_hd : d.valid) :
    (format_time d).length = 23 ∧
    (format_time d).data[4]? = some '-' ∧
    (format_time d).data[7]? = some '-' ∧
    (format_time d).data[10]? = some ' ' ∧
    (format_time d).data[13]? = some ':' ∧
    (format_time d).data[16]? = some ':' ∧
    (format_time d).data[19]? = some '.' ∧
    (∀ c ∈ (format_time d).data,
      c.isDigit = true ∨ c = '-' ∨ c = ' ' ∨ c = ':' ∨ c = '.') := by
  rw [format_time_eq]
  refine ⟨rfl, rfl, rfl, rfl, rfl, rfl, rfl, ?_⟩
  intro c hc
  dsimp only at hc
  simp only [List.mem_cons, List.not_mem_nil, or_false] at hc
  rcases hc with h | h | h | h | h | h | h | h | h | h | h | h | h | h | h | h |
    h | h | h | h | h | h | h
  all_goals first
    | (subst h; exact Or.inl (digitChar_isDigit _))
    | (subst h; simp)

/-- Witness for C4 at a concrete valid instant. -/
theorem format_time_shape_witness :
    DateTime.valid ⟨2026, 10, 12, 9, 5, 3, 123456⟩ ∧
      (format_time ⟨2026, 10, 12, 9, 5, 3, 123456⟩).length = 23 := by
  exact ⟨by decide, (format_time_shape ⟨2026, 10, 12, 9, 5, 3, 123456⟩ (by decide)).1⟩

theorem loop_count_cleanup (env : Env) (fuel : Nat) :
    ∀ (i : Nat) (m : TimeMonitor) (t : TermSettings),
      ((TimeMonitor.loop env fuel i m t).2.2.1).count Event.cleanup = 0 := by
  induction fuel with
  | zero => intro i m t; simp [TimeMonitor.loop]
  | succ f ih =>
    intro i m t
    simp only [TimeMonitor.loop]
    repeat' split
    all_goals simp [TimeMonitor.signal_handler_events, List.count_append, List.count_cons, ih]

theorem loop_count_noneBreak (env : Env) (fuel : Nat) :
    ∀ (i : Nat) (m : TimeMonitor) (t : TermSettings), m.stdscr = some () →
      ((TimeMonitor.loop env fuel i m t).2.2.1).count Event.stdscrNoneBreak = 0 := by
  induction fuel with
  | zero => intro i m t _; simp [TimeMonitor.loop]
  | succ f ih =>
    intro i m t hm
    simp only [TimeMonitor.loop]
    repeat' split
    all_goals
      simp_all [TimeMonitor.signal_handler, TimeMonitor.signal_handler_events,
        List.count_append, List.count_cons, ih]

theorem cleanup_fst (m : TimeMonitor) (t : TermSettings) :
    (TimeMonitor.cleanup_curses m t).1 = m := by
  cases h : m.stdscr <;> simp [TimeMonitor.cleanup_curses, h]

theorem handleExc_done (e : PyError) : ∃ o, TimeMonitor.handleExc e = RunResult.done o := by
  unfold TimeMonitor.handleExc
  split
  · exact ⟨none, rfl⟩
  · exact ⟨some e, rfl⟩

theorem run_trace_cases (env : Env) (fuel : Nat) (m : TimeMonitor) (t : TermSettings) :
    ((TimeMonitor.run env fuel m t).2.2.2 = RunResult.diverged ∧
      (TimeMonitor.run env fuel m t).2.2.1.count Event.cleanup = 0) ∨
    ((∃ o, (TimeMonitor.run env fuel m t).2.2.2 = RunResult.done o) ∧
      ∃ pre, (TimeMonitor.run env fuel m t).2.2.1 = Event.initAttempt :: (pre ++ [Event.cleanup]) ∧
        pre.count Event.cleanup = 0) := by
  simp only [TimeMonitor.run]
  cases hi : env.initscrResult with
  | raised e =>
      right
      simp only [TimeMonitor.init_curses, hi]
      exact ⟨handleExc_done e, [], by simp, by simp⟩
  | noneWin =>
      right
      simp only [TimeMonitor.init_curses, hi]
      exact ⟨handleExc_done _, [], by simp, by simp⟩
  | win =>
      cases hs : env.setupFail with
      | some e =>
          right
          simp only [TimeMonitor.init_curses, hi, hs]
          exact ⟨handleExc_done e, [], by simp, by simp⟩
      | none =>
          simp only [TimeMonitor.init_curses, hi, hs]
          have hc := loop_count_cleanup env fuel 0
            { m with running := true, stdscr := some () }
            ⟨false, false, true, false, true⟩
          split
          · left
            exact ⟨rfl, by simpa [List.count_cons] using hc⟩
          · right
            exact ⟨⟨none, rfl⟩, (TimeMonitor.loop env fuel 0
              { m with running := true, stdscr := some () }
              ⟨false, false, true, false, true⟩).2.2.1, rfl, hc⟩
          · right
            exact ⟨handleExc_done _, (TimeMonitor.loop env fuel 0
              { m with running := true, stdscr := some () }
              ⟨false, false, true, false, true⟩).2.2.1, rfl, hc⟩

/-- C1: every completed `run()` — quit key, cleared `running` flag, or an
uncaught exception during a frame — invokes the `cleanup_curses` teardown
exactly once, and the teardown is the last terminal action of the
invocation, so it completes before any exception re-surfaces to the
caller (the `finally` clause runs before the `except Exception: raise`
result is returned). -/
theorem cleanup_called_exactly_once (env : Env) (fuel : Nat) (m : TimeMonitor)
    (t : TermSettings) (o : Option PyError)
    (h : (TimeMonitor.run env fuel m t).2.2.2 = RunResult.done o) :
    (TimeMonitor.run env fuel m t).2.2.1.count Event.cleanup = 1 ∧
    (TimeMonitor.run env fuel m t).2.2.1.getLast? = some Event.cleanup := by
  rcases run_trace_cases env fuel m t with ⟨hd, _⟩ | ⟨_, pre, htr, hcnt⟩
  · rw [h] at hd; cases hd
  · rw [htr]
    constructor
    · simp [List.count_cons, List.count_append, hcnt]
    · rw [show Event.initAttempt :: (pre ++ [Event.cleanup]) =
        (Event.initAttempt :: pre) ++ [Event.cleanup] from rfl]
      exact List.getLast?_concat _

/-- Witness for C1: a run stopped by the quit key on its first iteration. -/
theorem cleanup_called_exactly_once_witness :
    (TimeMonitor.run quitEnv 2 monitor1 initialTerm).2.2.2 = RunResult.done none ∧
      ((TimeMonitor.run quitEnv 2 monitor1 initialTerm).2.2.1.count Event.cleanup = 1 ∧
       (TimeMonitor.run quitEnv 2 monitor1 initialTerm).2.2.1.getLast? = some Event.cleanup) :=
  ⟨rfl, cleanup_called_exactly_once quitEnv 2 monitor1 initialTerm none rfl⟩

/-- C2: `cleanup_curses` is idempotent — on a never-opened session
(`stdscr = None`) it is a no-op, and invoking it a second time after a
first teardown changes neither the monitor nor the terminal settings
beyond what the first invocation produced (the model is a total function:
no exception is raised). -/
theorem cleanup_idempotent (m : TimeMonitor) (t : TermSettings) :
    (m.stdscr = none → TimeMonitor.cleanup_curses m t = (m, t)) ∧
    TimeMonitor.cleanup_curses (TimeMonitor.cleanup_curses m t).1
        (TimeMonitor.cleanup_curses m t).2 =
      TimeMonitor.cleanup_curses m t := by
  cases h : m.stdscr with
  | none =>
      exact ⟨fun _ => by simp [TimeMonitor.cleanup_curses, h],
        by simp [TimeMonitor.cleanup_curses, h]⟩
  | some u =>
      constructor
      · intro hn
        simp [h] at hn
      · simp [TimeMonitor.cleanup_curses, h]

/-- Witness for C2 on a never-opened monitor. -/
theorem cleanup_idempotent_witness :
    monitor1.stdscr = none ∧
      TimeMonitor.cleanup_curses monitor1 initialTerm = (monitor1, initialTerm) :=
  ⟨rfl, (cleanup_idempotent monitor1 initialTerm).1 rfl⟩

/-- C3: when the key polled on the very first iteration is `q` (113) or `Q`
(81), the loop exits before rendering that frame: the run completes
normally, the `running` flag ends false, and no `clear`, `addstr`
(`writeAt`) or `refresh` primitive ever appears in the trace. -/
theorem quit_key_stops_before_render (env : Env) (fuel : Nat) (m : TimeMonitor)
    (t : TermSettings)
    (h1 : env.initscrResult = InitscrResult.win) (h2 : env.setupFail = none)
    (h3 : env.key 0 = 113 ∨ env.key 0 = 81) (h4 : 1 ≤ fuel) :
    (TimeMonitor.run env fuel m t).2.2.2 = RunResult.done none ∧
    (TimeMonitor.run env fuel m t).1.running = false ∧
    (TimeMonitor.run env fuel m t).2.2.1.countP (fun e => e.isRender) = 0 := by
  obtain ⟨f, rfl⟩ : ∃ f, fuel = f + 1 := ⟨fuel - 1, by omega⟩
  simp only [TimeMonitor.run, TimeMonitor.init_curses, h1, h2, TimeMonitor.loop]
  by_cases hs : env.signalBefore 0
  · simp [hs, TimeMonitor.signal_handler, TimeMonitor.signal_handler_events,
      TimeMonitor.cleanup_curses, Event.isRender]
  · simp only [hs, Bool.false_eq_true, if_false, if_true]
    rw [if_pos h3]
    simp [TimeMonitor.cleanup_curses, Event.isRender]

/-- Witness for C3: quit key on the first poll of a fresh run. -/
theorem quit_key_stops_before_render_witness :
    quitEnv.initscrResult = InitscrResult.win ∧ quitEnv.setupFail = none ∧
      (quitEnv.key 0 = 113 ∨ quitEnv.key 0 = 81) ∧ 1 ≤ 1 ∧
      ((TimeMonitor.run quitEnv 1 monitor1 initialTerm).2.2.2 = RunResult.done none ∧
       (TimeMonitor.run quitEnv 1 monitor1 initialTerm).1.running = false ∧
       (TimeMonitor.run quitEnv 1 monitor1 initialTerm).2.2.1.countP (fun e => e.isRender) = 0) :=
  ⟨rfl, rfl, Or.inl rfl, le_refl 1,
    quit_key_stops_before_render quitEnv 1 monitor1 initialTerm rfl rfl (Or.inl rfl) (le_refl 1)⟩

/-- C5: a non-positive `--interval` makes `main` exit with code 1, write
`Error: Interval must be greater than 0` to standard error, construct no
monitor, and produce an empty terminal trace (the session is never
opened). -/
theorem nonpositive_interval_rejected (interval : ℚ) (verbose : Bool) (env : Env)
    (fuel : Nat) (h : interval ≤ 0) :
    Cli.main interval verbose env fuel =
      { exitCode := 1, stderr := [intervalErrMsg], monitorConstructed := false,
        runTrace := [], diverged := false } := by
  simp [Cli.main, h]

/-- Witness for C5 at interval 0. -/
theorem nonpositive_interval_rejected_witness :
    (0 : ℚ) ≤ 0 ∧
      Cli.main 0 false quitEnv 1 =
        { exitCode := 1, stderr := [intervalErrMsg], monitorConstructed := false,
          runTrace := [], diverged := false } :=
  ⟨le_refl 0, nonpositive_interval_rejected 0 false quitEnv 1 (le_refl 0)⟩

/-- C6: when `init_curses` raises a (non-`KeyboardInterrupt`) exception,
`run` never enters the per-frame loop — the trace is exactly the init
attempt followed by the teardown, with no poll, render or sleep — and the
exception re-surfaces to the caller after the teardown. -/
theorem init_failure_propagates_after_teardown (env : Env) (fuel : Nat)
    (m : TimeMonitor) (t : TermSettings) (e : PyError)
    (h1 : (TimeMonitor.init_curses env { m with running := true } t).2 = some e)
    (h2 : e ≠ PyError.keyboardInterrupt) :
    (TimeMonitor.run env fuel m t).2.2.1 = [Event.initAttempt, Event.cleanup] ∧
    (TimeMonitor.run env fuel m t).2.2.2 = RunResult.done (some e) := by
  simp only [TimeMonitor.run]
  rw [h1]
  refine ⟨rfl, ?_⟩
  simp [TimeMonitor.handleExc, h2]

/-- Witness for C6: `initscr` raising a curses error. -/
theorem init_failure_propagates_after_teardown_witness :
    (TimeMonitor.init_curses initFailEnv { monitor1 with running := true } initialTerm).2 =
        some (PyError.cursesError initFailMsg) ∧
      PyError.cursesError initFailMsg ≠ PyError.keyboardInterrupt ∧
      ((TimeMonitor.run initFailEnv 3 monitor1 initialTerm).2.2.1 =
          [Event.initAttempt, Event.cleanup] ∧
       (TimeMonitor.run initFailEnv 3 monitor1 initialTerm).2.2.2 =
          RunResult.done (some (PyError.cursesError initFailMsg))) :=
  ⟨rfl, by decide,
    init_failure_propagates_after_teardown initFailEnv 3 monitor1 initialTerm
      (PyError.cursesError initFailMsg) rfl (by decide)⟩

/-- C7: every frame centers the timestamp at row `height // 2` and column
`max(0, (width - len) // 2)` (floor division); the column is never
negative, even for zero or tiny widths, and for a 24×80 terminal with the
23-character timestamp the position is row 12, column 28. -/
theorem centering_formula (h w tsLen : Nat) :
    TimeMonitor.centerRow h = h / 2 ∧
    TimeMonitor.centerCol w tsLen = max 0 (((w : Int) - (tsLen : Int)).fdiv 2) ∧
    0 ≤ TimeMonitor.centerCol w tsLen ∧
    TimeMonitor.centerRow 24 = 12 ∧ TimeMonitor.centerCol 80 23 = 28 :=
  ⟨rfl, rfl, le_max_left _ _, by decide, by decide⟩

/-- C8: within one `run` invocation the `running` flag is monotone: the loop
never turns a false flag back to true (a true final flag means the flag was
true on entry), and every completed `run` ends with the flag false (the
`finally` clause clears it). -/
theorem running_flag_monotone (env : Env) (fuel i : Nat) (m : TimeMonitor)
    (t : TermSettings) (o : Option PyError) :
    ((TimeMonitor.loop env fuel i m t).1.running = true → m.running = true) ∧
    ((TimeMonitor.run env fuel m t).2.2.2 = RunResult.done o →
      (TimeMonitor.run env fuel m t).1.running = false) := by
  constructor
  · intro h
    by_cases hr : m.running = true
    · exact hr
    · exfalso
      have hr' : m.running = false := by simpa using hr
      cases fuel with
      | zero => rw [TimeMonitor.loop] at h; rw [hr'] at h; cases h
      | succ f =>
        simp only [TimeMonitor.loop] at h
        by_cases hs : env.signalBefore i <;>
          simp [hs, TimeMonitor.signal_handler, hr'] at h
  · intro h
    simp only [TimeMonitor.run] at h ⊢
    cases hi : env.initscrResult with
    | raised e =>
        simp only [TimeMonitor.init_curses, hi]
        rw [cleanup_fst]
    | noneWin =>
        simp only [TimeMonitor.init_curses, hi]
        rw [cleanup_fst]
    | win =>
        cases hsf : env.setupFail with
        | some e =>
            simp only [TimeMonitor.init_curses, hi, hsf]
            rw [cleanup_fst]
        | none =>
            simp only [TimeMonitor.init_curses, hi, hsf] at h ⊢
            split at h
            · simp at h
            · rw [cleanup_fst]
            · rw [cleanup_fst]

/-- Witness for C8: a live monitor that quits on the first poll keeps its
flag true through the loop; the completed run ends with the flag false. -/
theorem running_flag_monotone_witness :
    (TimeMonitor.loop quitEnv 1 0 monitorLive initialTerm).1.running = true ∧
      (TimeMonitor.run quitEnv 1 monitorLive initialTerm).2.2.2 = RunResult.done none ∧
      monitorLive.running = true ∧
      (TimeMonitor.run quitEnv 1 monitorLive initialTerm).1.running = false :=
  ⟨rfl, rfl,
    (running_flag_monotone quitEnv 1 0 monitorLive initialTerm none).1 rfl,
    (running_flag_monotone quitEnv 1 0 monitorLive initialTerm none).2 rfl⟩

/-- C9: the registered signal handler performs exactly one state change —
clearing the `running` flag — and invokes no terminal primitive: the
window handle and interval are untouched and the handler's event trace is
empty. -/
theorem signal_handler_only_clears_flag (sg : Int) (m : TimeMonitor) :
    (TimeMonitor.signal_handler sg m).running = false ∧
    (TimeMonitor.signal_handler sg m).stdscr = m.stdscr ∧
    (TimeMonitor.signal_handler sg m).update_interval = m.update_interval ∧
    TimeMonitor.signal_handler_events sg = [] :=
  ⟨rfl, rfl, rfl, rfl⟩

/-- C10: the defensive `stdscr is None` branch of the loop body is
unreachable in every run: `init_curses` either raises (so the loop is never
entered) or assigns a non-`None` window, and nothing in the loop clears the
handle, so the `stdscrNoneBreak` event never occurs in any trace. -/
theorem loop_body_stdscr_some (env : Env) (fuel : Nat) (m : TimeMonitor)
    (t : TermSettings) :
    (TimeMonitor.run env fuel m t).2.2.1.count Event.stdscrNoneBreak = 0 := by
  simp only [TimeMonitor.run]
  cases hi : env.initscrResult with
  | raised e => simp [TimeMonitor.init_curses, hi]
  | noneWin => simp [TimeMonitor.init_curses, hi]
  | win =>
      cases hs : env.setupFail with
      | some e => simp [TimeMonitor.init_curses, hi, hs]
      | none =>
          simp only [TimeMonitor.init_curses, hi, hs]
          have hc := loop_count_noneBreak env fuel 0
            { m with running := true, stdscr := some () }
            ⟨false, false, true, false, true⟩ rfl
          split
          · simpa [List.count_cons] using hc
          · simpa [List.count_cons, List.count_append] using hc
          · simpa [List.count_cons, List.count_append] using hc
